import Mathlib

/-!
Verification of the GRIB1 parameter-table module
(`src/gribberish/src/grib1/parameters.rs`).

The module maps GRIB1 parameter numbers and level-type codes to metadata.
All machine integers in the source are `u8`; they are embedded as `Nat`,
and claims that quantify over the whole wire range quantify over `Fin 256`.
Rust `Option` maps to Lean `Option`, `&'static str` to `String`, and the
Rust `match` with a trailing wildcard arm to a Lean `match` (or an
if-then-else chain for the center dispatcher, whose arms are function
calls rather than data).
-/

/-- Embedding of the Rust struct `Grib1Parameter`: a parameter number
together with its abbreviation, descriptive name and unit string. -/
structure Grib1Parameter where
  number : Nat
  abbreviation : String
  name : String
  units : String
deriving DecidableEq

/-- ECMWF parameter table (center 98), embedding `get_ecmwf_parameter`.
Each arm transcribes one arm of the Rust `match`, fields in source order:
number, abbreviation, name, units. -/
def get_ecmwf_parameter (parameter : Nat) : Option Grib1Parameter :=
  match parameter with
  | 1 => some ⟨1, "sp", "Surface pressure", "Pa"⟩
  | 2 => some ⟨2, "prmsl", "Pressure reduced to MSL", "Pa"⟩
  | 11 => some ⟨11, "t", "Temperature", "K"⟩
  | 20 => some ⟨20, "vit", "Visibility", "m"⟩
  | 22 => some ⟨22, "clmr", "Mixing ratio", "kg kg-1"⟩
  | 29 => some ⟨29, "lvt", "Type of low vegetation", "~"⟩
  | 31 => some ⟨31, "ci", "Sea-ice cover", "(0-1)"⟩
  | 32 => some ⟨32, "asn", "Snow albedo", "(0-1)"⟩
  | 33 => some ⟨33, "rsn", "Snow density", "kg m-3"⟩
  | 34 => some ⟨34, "sstk", "Sea surface temperature", "K"⟩
  | 39 => some ⟨39, "swvl1", "Volumetric soil water layer 1", "m3 m-3"⟩
  | 44 => some ⟨44, "es", "Snow evaporation", "m of water equivalent"⟩
  | 47 => some ⟨47, "dsrp", "Direct solar radiation", "W m-2 s"⟩
  | 49 => some ⟨49, "10fg", "10 metre wind gust", "m s-1"⟩
  | 50 => some ⟨50, "lspf", "Large-scale precipitation fraction", "s"⟩
  | 51 => some ⟨51, "q", "Specific humidity", "kg kg-1"⟩
  | 52 => some ⟨52, "r", "Relative humidity", "%"⟩
  | 53 => some ⟨53, "q", "Humidity mixing ratio", "kg kg-1"⟩
  | 54 => some ⟨54, "pwat", "Precipitable water", "kg m-2"⟩
  | 59 => some ⟨59, "prate", "Precipitation rate", "kg m-2 s-1"⟩
  | 61 => some ⟨61, "tp", "Total precipitation", "m"⟩
  | 66 => some ⟨66, "lsff", "Lake shape factor", "dimensionless"⟩
  | 67 => some ⟨67, "lmlt", "Lake mix-layer temperature", "K"⟩
  | 71 => some ⟨71, "tcc", "Total cloud cover", "%"⟩
  | 78 => some ⟨78, "tclw", "Total column cloud liquid water", "kg m-2"⟩
  | 79 => some ⟨79, "tciw", "Total column cloud ice water", "kg m-2"⟩
  | 89 => some ⟨89, "sunsd", "Sunshine duration", "s"⟩
  | 121 => some ⟨121, "mx2t", "Maximum temperature at 2 metres", "K"⟩
  | 122 => some ⟨122, "mn2t", "Minimum temperature at 2 metres", "K"⟩
  | 123 => some ⟨123, "10fg", "10 metre wind gust", "m s-1"⟩
  | 124 => some ⟨124, "emis", "Surface emissivity", "dimensionless"⟩
  | 125 => some ⟨125, "veg", "Vegetation fraction", "(0-1)"⟩
  | 126 => some ⟨126, "sltyp", "Soil type", "dimensionless"⟩
  | 127 => some ⟨127, "cape", "Convective available potential energy", "J kg-1"⟩
  | 128 => some ⟨128, "cin", "Convective inhibition", "J kg-1"⟩
  | 129 => some ⟨129, "z", "Geopotential", "m2 s-2"⟩
  | 130 => some ⟨130, "t", "Temperature", "K"⟩
  | 131 => some ⟨131, "u", "U component of wind", "m s-1"⟩
  | 132 => some ⟨132, "v", "V component of wind", "m s-1"⟩
  | 133 => some ⟨133, "q", "Specific humidity", "kg kg-1"⟩
  | 134 => some ⟨134, "sp", "Surface pressure", "Pa"⟩
  | 135 => some ⟨135, "w", "Vertical velocity", "Pa s-1"⟩
  | 136 => some ⟨136, "tcw", "Total column water", "kg m-2"⟩
  | 137 => some ⟨137, "tcwv", "Total column water vapour", "kg m-2"⟩
  | 139 => some ⟨139, "stl1", "Soil temperature level 1", "K"⟩
  | 141 => some ⟨141, "sd", "Snow depth", "m of water equivalent"⟩
  | 143 => some ⟨143, "cp", "Convective precipitation", "m"⟩
  | 144 => some ⟨144, "sf", "Snowfall", "m of water equivalent"⟩
  | 148 => some ⟨148, "chnk", "Charnock", "dimensionless"⟩
  | 151 => some ⟨151, "prmsl", "Pressure reduced to MSL", "Pa"⟩
  | 157 => some ⟨157, "r", "Relative humidity", "%"⟩
  | 159 => some ⟨159, "blh", "Boundary layer height", "m"⟩
  | 164 => some ⟨164, "tcc", "Total cloud cover", "(0-1)"⟩
  | 165 => some ⟨165, "u10", "10 metre U wind component", "m s-1"⟩
  | 166 => some ⟨166, "v10", "10 metre V wind component", "m s-1"⟩
  | 167 => some ⟨167, "t2m", "2 metre temperature", "K"⟩
  | 168 => some ⟨168, "d2m", "2 metre dewpoint temperature", "K"⟩
  | 169 => some ⟨169, "ssrd", "Surface solar radiation downwards", "J m-2"⟩
  | 179 => some ⟨179, "ttr", "Top net thermal radiation", "J m-2"⟩
  | 186 => some ⟨186, "lcc", "Low cloud cover", "(0-1)"⟩
  | 187 => some ⟨187, "mcc", "Medium cloud cover", "(0-1)"⟩
  | 188 => some ⟨188, "hcc", "High cloud cover", "(0-1)"⟩
  | 213 => some ⟨213, "vimd", "Vertically integrated moisture divergence", "kg m-2"⟩
  | 217 => some ⟨217, "sdwe", "Standard deviation wave height", "m"⟩
  | 218 => some ⟨218, "mpww", "Mean wave period based on second moment", "s"⟩
  | 219 => some ⟨219, "p1ww", "Mean wave period based on first moment", "s"⟩
  | 220 => some ⟨220, "mzww", "Mean zero-crossing wave period", "s"⟩
  | 221 => some ⟨221, "ipww", "Mean period of wind waves", "s"⟩
  | 226 => some ⟨226, "10ws", "10 metre wind speed", "m s-1"⟩
  | 228 => some ⟨228, "tp", "Total precipitation", "m"⟩
  | 229 => some ⟨229, "iews", "Instantaneous eastward turbulent surface stress", "N m-2"⟩
  | 230 => some ⟨230, "inss", "Instantaneous northward turbulent surface stress", "N m-2"⟩
  | 231 => some ⟨231, "ishf", "Instantaneous surface heat flux", "W m-2"⟩
  | 232 => some ⟨232, "ie", "Instantaneous moisture flux", "kg m-2 s-1"⟩
  | 234 => some ⟨234, "lsrh", "Logarithm of surface roughness length for heat", "dimensionless"⟩
  | 235 => some ⟨235, "skt", "Skin temperature", "K"⟩
  | 236 => some ⟨236, "stl4", "Soil temperature level 4", "K"⟩
  | 237 => some ⟨237, "swvl4", "Volumetric soil water layer 4", "m3 m-3"⟩
  | 238 => some ⟨238, "tsn", "Temperature of snow layer", "K"⟩
  | 239 => some ⟨239, "csf", "Convective snowfall", "m of water equivalent"⟩
  | 240 => some ⟨240, "lsf", "Large-scale snowfall", "m of water equivalent"⟩
  | 241 => some ⟨241, "acf", "Accumulated cloud fraction tendency", "(-1 to 1)"⟩
  | 243 => some ⟨243, "fal", "Forecast albedo", "(0-1)"⟩
  | 244 => some ⟨244, "fsr", "Forecast surface roughness", "m"⟩
  | 246 => some ⟨246, "clwc", "Cloud liquid water content", "kg kg-1"⟩
  | 247 => some ⟨247, "ciwc", "Cloud ice water content", "kg kg-1"⟩
  | _ => none

/-- WMO standard parameter table (Table 2), embedding
`get_wmo_standard_parameter`. -/
def get_wmo_standard_parameter (parameter : Nat) : Option Grib1Parameter :=
  match parameter with
  | 1 => some ⟨1, "pres", "Pressure", "Pa"⟩
  | 2 => some ⟨2, "prmsl", "Pressure reduced to MSL", "Pa"⟩
  | 7 => some ⟨7, "gh", "Geopotential height", "gpm"⟩
  | 11 => some ⟨11, "t", "Temperature", "K"⟩
  | 33 => some ⟨33, "u", "U-component of wind", "m s-1"⟩
  | 34 => some ⟨34, "v", "V-component of wind", "m s-1"⟩
  | 39 => some ⟨39, "w", "Vertical velocity", "Pa s-1"⟩
  | 51 => some ⟨51, "q", "Specific humidity", "kg kg-1"⟩
  | 52 => some ⟨52, "r", "Relative humidity", "%"⟩
  | 61 => some ⟨61, "tp", "Total precipitation", "kg m-2"⟩
  | _ => none

/-- NCEP parameter table (center 7), embedding `get_ncep_parameter`:
its body simply delegates to the WMO standard table. -/
def get_ncep_parameter (parameter : Nat) : Option Grib1Parameter :=
  get_wmo_standard_parameter parameter

/-- Center dispatcher, embedding `get_parameter`: center 98 consults the
ECMWF table, center 7 the NCEP table, every other center the WMO standard
table. The Rust integer `match` with a wildcard arm is embedded as an
if-then-else chain with the same semantics. -/
def get_parameter (center_id parameter : Nat) : Option Grib1Parameter :=
  if center_id = 98 then get_ecmwf_parameter parameter
  else if center_id = 7 then get_ncep_parameter parameter
  else get_wmo_standard_parameter parameter

/-- Level-type table, embedding `get_level_type_info`: maps a level-type
code to a (name, units) pair, with the `("unknown", "")` sentinel for
every code outside the mapped set. -/
def get_level_type_info (level_type : Nat) : String × String :=
  match level_type with
  | 1 => ("surface", "")
  | 2 => ("cloud_base", "")
  | 3 => ("cloud_top", "")
  | 4 => ("isotherm_zero", "m")
  | 100 => ("isobaric", "hPa")
  | 102 => ("mean_sea_level", "")
  | 103 => ("fixed_height", "m")
  | 105 => ("fixed_height_above_ground", "m")
  | 106 => ("sigma", "sigma")
  | 107 => ("sigma_height", "sigma")
  | 108 => ("sigma_pressure", "sigma")
  | 109 => ("hybrid", "hybrid")
  | 111 => ("depth_below_surface", "m")
  | 112 => ("layer_between_depths", "m")
  | 113 => ("isentropic", "K")
  | 114 => ("layer_between_isentropic", "K")
  | 200 => ("entire_atmosphere", "")
  | 201 => ("entire_ocean", "")
  | _ => ("unknown", "")

/-- The set of parameter codes carried by the ECMWF table: the literal
patterns of the `match` in `get_ecmwf_parameter`, in source order. -/
def ecmwfCodes : List Nat :=
  [1, 2, 11, 20, 22, 29, 31, 32, 33, 34, 39, 44, 47, 49, 50, 51, 52, 53,
   54, 59, 61, 66, 67, 71, 78, 79, 89, 121, 122, 123, 124, 125, 126, 127,
   128, 129, 130, 131, 132, 133, 134, 135, 136, 137, 139, 141, 143, 144,
   148, 151, 157, 159, 164, 165, 166, 167, 168, 169, 179, 186, 187, 188,
   213, 217, 218, 219, 220, 221, 226, 228, 229, 230, 231, 232, 234, 235,
   236, 237, 238, 239, 240, 241, 243, 244, 246, 247]

/-- The set of level-type codes carried by the level-type table: the
literal patterns of the `match` in `get_level_type_info`. -/
def levelTypeCodes : List Nat :=
  [1, 2, 3, 4, 100, 102, 103, 105, 106, 107, 108, 109, 111, 112, 113,
   114, 200, 201]

/-- `true` iff an optional parameter record is either absent or carries
the given parameter number in its `number` field. -/
def number_matches (o : Option Grib1Parameter) (p : Nat) : Bool :=
  match o with
  | none => true
  | some r => r.number == p

set_option maxRecDepth 4096

/-- C1: for center 98 (ECMWF), a parameter code absent from the ECMWF
table yields `none`, with no fallback to the standard table; in
particular code 7 is absent from the ECMWF table yet present in the
standard table, and still yields `none` under center 98. -/
theorem ecmwf_miss_no_fallback :
    (∀ p : Fin 256, p.val ∉ ecmwfCodes → get_parameter 98 p.val = none) ∧
    (7 : Nat) ∉ ecmwfCodes ∧ (get_wmo_standard_parameter 7).isSome = true ∧
    get_parameter 98 7 = none := by
  refine ⟨?_, by decide, rfl, rfl⟩
  decide

/-- Closed instance of `ecmwf_miss_no_fallback` at parameter code 7. -/
theorem ecmwf_miss_no_fallback_witness : get_parameter 98 7 = none :=
  ecmwf_miss_no_fallback.1 7 (by decide)

/-- C2: every center other than 98 and 7 dispatches to the WMO standard
table; in particular center 255 with code 11 returns the standard record
with abbreviation "t". -/
theorem default_center_uses_standard_table :
    (∀ center_id p : Nat, center_id ≠ 98 → center_id ≠ 7 →
      get_parameter center_id p = get_wmo_standard_parameter p) ∧
    get_parameter 255 11 = some ⟨11, "t", "Temperature", "K"⟩ := by
  refine ⟨fun c p h98 h7 => ?_, rfl⟩
  simp [get_parameter, h98, h7]

/-- Closed instance of `default_center_uses_standard_table` at center 255,
code 11. -/
theorem default_center_uses_standard_table_witness :
    get_parameter 255 11 = get_wmo_standard_parameter 11 :=
  default_center_uses_standard_table.1 255 11 (by decide) (by decide)

/-- C3: the NCEP table (center 7) is a pure delegate to the WMO standard
table for every parameter code; in particular code 61 gives the
standard-table record ("tp", "Total precipitation", "kg m-2"). -/
theorem ncep_is_pure_delegate :
    (∀ p : Nat, get_parameter 7 p = get_wmo_standard_parameter p) ∧
    get_parameter 7 61 = some ⟨61, "tp", "Total precipitation", "kg m-2"⟩ := by
  exact ⟨fun p => rfl, rfl⟩

/-- C4: center 98 with code 11 gives record ("t", "Temperature", "K"),
and center 98 with code 131 gives a record with abbreviation "u". -/
theorem ecmwf_known_entries :
    get_parameter 98 11 = some ⟨11, "t", "Temperature", "K"⟩ ∧
    ∃ r, get_parameter 98 131 = some r ∧ r.abbreviation = "u" := by
  exact ⟨rfl, ⟨131, "u", "U component of wind", "m s-1"⟩, rfl, rfl⟩

/-- C5: the level-type lookup is total (it is a plain function into
pairs), and every code of the u8 range outside the mapped set returns
exactly the sentinel ("unknown", ""); in particular code 250 does. -/
theorem level_type_total_with_sentinel :
    (∀ c : Fin 256, c.val ∉ levelTypeCodes →
      get_level_type_info c.val = ("unknown", "")) ∧
    get_level_type_info 250 = ("unknown", "") := by
  refine ⟨?_, rfl⟩
  decide

/-- Closed instance of `level_type_total_with_sentinel` at code 250. -/
theorem level_type_total_with_sentinel_witness :
    get_level_type_info 250 = ("unknown", "") :=
  level_type_total_with_sentinel.1 250 (by decide)

/-- C6: level-type code 100 is ("isobaric", "hPa") and code 1 is
("surface", ""). -/
theorem level_type_known_entries :
    get_level_type_info 100 = ("isobaric", "hPa") ∧
    get_level_type_info 1 = ("surface", "") := ⟨rfl, rfl⟩

/-- Every ECMWF record carries its own lookup key in the `number`
field. -/
lemma ecmwf_number_ok :
    ∀ p : Fin 256, number_matches (get_ecmwf_parameter p.val) p.val = true := by
  decide

/-- Every WMO standard record carries its own lookup key in the `number`
field. -/
lemma wmo_number_ok :
    ∀ p : Fin 256,
      number_matches (get_wmo_standard_parameter p.val) p.val = true := by
  decide

/-- C7: whenever the dispatcher returns a record, the record's `number`
field equals the parameter-number argument. -/
theorem get_parameter_number_field (c p : Fin 256) (r : Grib1Parameter)
    (h : get_parameter c.val p.val = some r) : r.number = p.val := by
  have hm : number_matches (get_parameter c.val p.val) p.val = true := by
    by_cases h98 : c.val = 98
    · simpa [get_parameter, h98] using ecmwf_number_ok p
    · by_cases h7 : c.val = 7
      · simpa [get_parameter, get_ncep_parameter, h98, h7] using wmo_number_ok p
      · simpa [get_parameter, h98, h7] using wmo_number_ok p
  rw [h] at hm
  simpa [number_matches] using hm

/-- Closed instance of `get_parameter_number_field` at center 98,
code 11. -/
theorem get_parameter_number_field_witness :
    (Grib1Parameter.mk 11 "t" "Temperature" "K").number = (11 : Fin 256).val :=
  get_parameter_number_field 98 11 ⟨11, "t", "Temperature", "K"⟩ rfl

/-- C8: the dispatcher is total over the full u8 x u8 domain: every pair
yields either `some` record or `none`, and both outcomes occur (absence
is a value, not a failure). -/
theorem get_parameter_total :
    (∀ c p : Fin 256,
      get_parameter c.val p.val = none ∨
      ∃ r, get_parameter c.val p.val = some r) ∧
    (∃ r, get_parameter 0 11 = some r) ∧ get_parameter 0 0 = none := by
  refine ⟨fun c p => ?_, ⟨⟨11, "t", "Temperature", "K"⟩, rfl⟩, rfl⟩
  cases h : get_parameter c.val p.val with
  | none => exact Or.inl rfl
  | some r => exact Or.inr ⟨r, rfl⟩

/-- C9: both lookups are deterministic functions of their arguments:
calls with identical inputs return identical outputs. -/
theorem lookups_deterministic :
    (∀ c p c₂ p₂ : Nat, c = c₂ → p = p₂ →
      get_parameter c p = get_parameter c₂ p₂) ∧
    (∀ l l₂ : Nat, l = l₂ →
      get_level_type_info l = get_level_type_info l₂) := by
  exact ⟨fun c p c₂ p₂ hc hp => by rw [hc, hp], fun l l₂ h => by rw [h]⟩

/-- Closed instance of `lookups_deterministic` at center 98, code 11 and
level type 100. -/
theorem lookups_deterministic_witness :
    get_parameter 98 11 = get_parameter 98 11 ∧
    get_level_type_info 100 = get_level_type_info 100 :=
  ⟨lookups_deterministic.1 98 11 98 11 rfl rfl,
   lookups_deterministic.2 100 100 rfl⟩

/-- C10: codes 61 and 33 are defined in both the ECMWF and standard
tables with disagreeing records: code 61 has unit "m" under center 98 but
"kg m-2" under center 255; code 33 is ("rsn", "Snow density") under
center 98 but ("u", "U-component of wind") under center 255. -/
theorem ecmwf_and_standard_disagree :
    (∃ r s, get_parameter 98 61 = some r ∧ get_parameter 255 61 = some s ∧
      r.units = "m" ∧ s.units = "kg m-2") ∧
    (∃ r s, get_parameter 98 33 = some r ∧ get_parameter 255 33 = some s ∧
      r.abbreviation = "rsn" ∧ r.name = "Snow density" ∧
      s.abbreviation = "u" ∧ s.name = "U-component of wind") := by
  exact ⟨⟨⟨61, "tp", "Total precipitation", "m"⟩,
          ⟨61, "tp", "Total precipitation", "kg m-2"⟩, rfl, rfl, rfl, rfl⟩,
         ⟨⟨33, "rsn", "Snow density", "kg m-3"⟩,
          ⟨33, "u", "U-component of wind", "m s-1"⟩,
          rfl, rfl, rfl, rfl, rfl, rfl⟩⟩
